import Mathlib

/-!
Shallow embedding of the core of the `frontpush` repository: the
`AudioRecorder` capture engine and the `sendAudioToBackend` dispatch
adapter (both from `src/unnamed/part_010`, an `audioRecorder.ts` module).

Conventions of the embedding:
* `MediaRecorder` is reduced to the one bit of its state the code reads,
  `state === "recording"`; the field `mediaRecorder : Option Bool` is
  `none` when the TS field is `null`, `some true` when the recorder is in
  the `"recording"` state and `some false` when it is `"inactive"`.
* Audio chunks are values of an arbitrary type `α`; the `dataavailable`
  handler appends a chunk to `audioChunks` (the handler ignores empty
  `event.data`, so only the non-empty deliveries are modelled as events).
* Calling `MediaRecorder.stop()` makes the encoder flush any buffered
  data through a final `dataavailable` event *before* the `stop` event
  fires; each finalize-type operation therefore takes a `flushed` list —
  the chunks that land between the call to `stop()` and the `stop`
  handler running (possibly empty).
* Promises become `Except`: a rejected promise is `.error`, a resolved
  one `.ok`.
-/

namespace Frontpush

/-- Errors raised (promise rejections / thrown errors) by the recorder. -/
inductive RecErr where
  /-- `getUserMedia` rejected: permission denied, no device, … -/
  | deviceUnavailable
  /-- `new Error("No active recording")` -/
  | noActiveRecording
  /-- `new Error("No stream available for restart")` -/
  | noStreamForRestart
  /-- `restartRecording` threw while rebinding or starting the encoder -/
  | restartFailed
  /-- `mediaRecorder.stop()` invoked on an inactive recorder: the `stop`
      event never fires again, so the pending promise never resolves and
      no blob is delivered; modelled as an error outcome. -/
  | invalidState
deriving Repr, DecidableEq

/-- The mutable fields of the `AudioRecorder` class. -/
structure RecorderState (α : Type) where
  /-- `private mediaRecorder: MediaRecorder | null` — `some b` with
      `b = (state == "recording")`, `none` for `null`. -/
  mediaRecorder : Option Bool
  /-- `private stream: MediaStream | null` — `true` iff non-null. -/
  stream : Bool
  /-- `private audioChunks: Blob[]` -/
  audioChunks : List α
  /-- `private processedChunkCount: number` -/
  processedChunkCount : Nat
deriving Repr, DecidableEq

/-- The freshly constructed recorder: all fields at their initializers. -/
def initialRecorder (α : Type) : RecorderState α :=
  { mediaRecorder := none, stream := false, audioChunks := [], processedChunkCount := 0 }

/-- The `ondataavailable` handler for a non-empty `event.data`:
    `this.audioChunks.push(event.data)`. -/
def ondataavailable {α : Type} (c : α) (s : RecorderState α) : RecorderState α :=
  { s with audioChunks := s.audioChunks ++ [c] }

/-- `async startRecording(): Promise<void>`. `acquireOk` is whether
    `navigator.mediaDevices.getUserMedia` resolves. On success the stream
    and a recording `MediaRecorder` are installed and
    `audioChunks`/`processedChunkCount` are reset; on failure the error is
    rethrown before any field was assigned, so the state is untouched. -/
def startRecording {α : Type} (acquireOk : Bool) (s : RecorderState α) :
    Except RecErr Unit × RecorderState α :=
  if acquireOk then
    (.ok (),
     { mediaRecorder := some true, stream := true,
       audioChunks := [], processedChunkCount := 0 })
  else
    (.error .deviceUnavailable, s)

/-- `stopRecording(): Promise<Blob>`. `flushed` are the chunks delivered by
    the final `dataavailable` fired by `mediaRecorder.stop()` before the
    `onstop` handler runs. The handler slices the unprocessed chunks *after*
    that flush, then runs `cleanup()`. -/
def stopRecording {α : Type} (flushed : List α) (s : RecorderState α) :
    Except RecErr (List α) × RecorderState α :=
  match s.mediaRecorder with
  | none => (.error .noActiveRecording, s)
  | some isRec =>
    if isRec then
      let chunks := s.audioChunks ++ flushed
      let unprocessedChunks := chunks.drop s.processedChunkCount
      -- this.cleanup()
      (.ok unprocessedChunks,
       { mediaRecorder := none, stream := false,
         audioChunks := [], processedChunkCount := 0 })
    else
      (.error .invalidState, s)

/-- `processSegment(): Promise<Blob>` followed by the private
    `restartRecording`. The unprocessed slice is computed *before*
    `mediaRecorder.stop()`; the stop-flush (`flushed`) then lands in
    `audioChunks`; the `handleStop` listener builds the blob from the
    pre-stop slice and sets `processedChunkCount` to the post-flush length;
    finally `restartRecording` rebinds a fresh encoder to the same stream
    (`restartOk` is whether constructing/starting it succeeds). On a restart
    failure the promise rejects, with the cursor already advanced. -/
def processSegment {α : Type} (flushed : List α) (restartOk : Bool)
    (s : RecorderState α) : Except RecErr (List α) × RecorderState α :=
  match s.mediaRecorder with
  | some true =>
    -- const unprocessedChunks = this.audioChunks.slice(this.processedChunkCount)
    let unprocessedChunks := s.audioChunks.drop s.processedChunkCount
    let currentStream := s.stream
    -- this.mediaRecorder.stop(): flush, then the handleStop listener
    let chunks := s.audioChunks ++ flushed
    let segmentBlob := unprocessedChunks
    -- this.processedChunkCount = this.audioChunks.length (post-flush)
    let s1 : RecorderState α :=
      { s with mediaRecorder := some false,
               audioChunks := chunks, processedChunkCount := chunks.length }
    -- this.restartRecording(currentMimeType, currentStream)
    if currentStream = false then
      (.error .noStreamForRestart, s1)
    else if restartOk then
      (.ok segmentBlob, { s1 with mediaRecorder := some true })
    else
      (.error .restartFailed, s1)
  | _ => (.error .noActiveRecording, s)

/-- `isRecording(): boolean` — `this.mediaRecorder?.state === "recording"`. -/
def isRecording {α : Type} (s : RecorderState α) : Bool :=
  s.mediaRecorder = some true

/-- Return type of `getRecordingStats()`. -/
structure RecordingStats where
  totalChunks : Nat
  processedChunks : Nat
  /-- JS subtraction of two numbers; kept as `Int`. -/
  unprocessedChunks : Int
deriving Repr, DecidableEq

/-- `getRecordingStats()`. -/
def getRecordingStats {α : Type} (s : RecorderState α) : RecordingStats :=
  { totalChunks := s.audioChunks.length,
    processedChunks := s.processedChunkCount,
    unprocessedChunks :=
      (s.audioChunks.length : Int) - (s.processedChunkCount : Int) }

/-! ### Recording sessions as traces

A session is `startRecording` (successful), then an interleaving of chunk
arrivals and `processSegment` calls, then a final `stopRecording`. -/

/-- One event inside a running session. -/
inductive SessionOp (α : Type) where
  /-- a `dataavailable` delivery of a non-empty chunk -/
  | chunk (c : α)
  /-- a `processSegment` call: `flushed` is what the encoder flushes at its
      finalize, `restartOk` whether the encoder rebind succeeds. -/
  | segment (flushed : List α) (restartOk : Bool)
deriving Repr, DecidableEq

/-- Apply one session event; the second component lists the blob this event
    delivered to the caller (empty on chunk arrival or a rejected call). -/
def stepOp {α : Type} (s : RecorderState α) : SessionOp α → RecorderState α × List (List α)
  | .chunk c => (ondataavailable c s, [])
  | .segment flushed restartOk =>
    match processSegment flushed restartOk s with
    | (.ok b, s1) => (s1, [b])
    | (.error _, s1) => (s1, [])

/-- Run a list of session events, collecting all delivered blobs in order. -/
def runOps {α : Type} (s : RecorderState α) : List (SessionOp α) → RecorderState α × List (List α)
  | [] => (s, [])
  | op :: ops =>
    let (s1, bs) := stepOp s op
    let (s2, bss) := runOps s1 ops
    (s2, bs ++ bss)

/-- The state right after a successful `startRecording`. -/
def recordingStart (α : Type) : RecorderState α :=
  { mediaRecorder := some true, stream := true, audioChunks := [], processedChunkCount := 0 }

/-- All underlying chunks of all blobs a session delivers: those returned by
    the `processSegment` calls in `ops`, then the blob of the final
    `stopRecording` (whose finalize flushes `stopFlush`). -/
def sessionDelivered {α : Type} (ops : List (SessionOp α)) (stopFlush : List α) : List α :=
  let (s, blobs) := runOps (recordingStart α) ops
  let stopBlob := match (stopRecording stopFlush s).1 with
    | .ok b => b
    | .error _ => []
  blobs.flatten ++ stopBlob

/-- The full chunk history of the same session: every chunk the encoder ever
    appended to `audioChunks`, including the flush of the final stop when
    that stop actually finalizes an active recorder. -/
def sessionHistory {α : Type} (ops : List (SessionOp α)) (stopFlush : List α) : List α :=
  let s := (runOps (recordingStart α) ops).1
  if s.mediaRecorder = some true then s.audioChunks ++ stopFlush else s.audioChunks

/-! ### Dispatch adapter: `sendAudioToBackend` -/

/-- A browser `Blob`; the adapter reads only its MIME `type`. -/
structure Blob where
  type : String
deriving Repr, DecidableEq

/-- The platform identifier: `"trello" | "linear" | "asana" | "notion"`. -/
inductive Platform where
  | trello
  | linear
  | asana
  | notion
deriving Repr, DecidableEq

/-- The string the TS union value holds. -/
def Platform.name : Platform → String
  | .trello => "trello"
  | .linear => "linear"
  | .asana => "asana"
  | .notion => "notion"

/-- `interface TrelloConfig` -/
structure TrelloConfig where
  apiKey : String
  token : String
  boardId : String
deriving Repr, DecidableEq

/-- `interface LinearConfig` -/
structure LinearConfig where
  apiKey : String
  workspaceId : String
deriving Repr, DecidableEq

/-- `interface AsanaConfig` -/
structure AsanaConfig where
  personalAccessToken : String
  projectId : String
deriving Repr, DecidableEq

/-- `type PlatformConfig = TrelloConfig | LinearConfig | AsanaConfig` -/
inductive PlatformConfig where
  | trelloConf (c : TrelloConfig)
  | linearConf (c : LinearConfig)
  | asanaConf (c : AsanaConfig)
deriving Repr, DecidableEq

/-- TS `config as TrelloConfig`: reading a property the runtime object lacks
    yields `undefined`, which `FormData.append` stringifies. -/
def PlatformConfig.asTrello : PlatformConfig → String × String × String
  | .trelloConf c => (c.apiKey, c.token, c.boardId)
  | .linearConf c => (c.apiKey, "undefined", "undefined")
  | .asanaConf _ => ("undefined", "undefined", "undefined")

/-- TS `config as LinearConfig`. -/
def PlatformConfig.asLinear : PlatformConfig → String × String
  | .trelloConf c => (c.apiKey, "undefined")
  | .linearConf c => (c.apiKey, c.workspaceId)
  | .asanaConf _ => ("undefined", "undefined")

/-- TS `config as AsanaConfig`. -/
def PlatformConfig.asAsana : PlatformConfig → String × String
  | .asanaConf c => (c.personalAccessToken, c.projectId)
  | _ => ("undefined", "undefined")

/-- One entry of the multipart `FormData`, in append order. -/
inductive FormEntry where
  /-- `formData.append(name, blob, filename)` -/
  | file (name : String) (blob : Blob) (filename : String)
  /-- `formData.append(name, value)` -/
  | field (name : String) (value : String)
deriving Repr, DecidableEq

/-- JS `String.prototype.includes`: `pat` occurs as a contiguous substring
    of `s`. -/
def strIncludes (s pat : String) : Bool :=
  (List.range (s.toList.length + 1)).any fun i =>
    ((s.toList.drop i).take pat.toList.length) == pat.toList

/-- The filename picked for the `audio` form entry: `recording.webm` when
    `audioBlob.type.includes("webm")`, else `recording.wav`. -/
def blobFilename (audioBlob : Blob) : String :=
  if strIncludes audioBlob.type "webm" then "recording.webm" else "recording.wav"

/-- The request `sendAudioToBackend` constructs before `fetch`: its URL and
    the `FormData` entries in append order. `cookies` is `Cookies.get`. -/
structure BackendRequest where
  apiEndpoint : String
  formData : List FormEntry
deriving Repr, DecidableEq

/-- The request-construction part of `sendAudioToBackend` (lines before the
    `fetch` call): endpoint selection, the `audio` file entry, the optional
    `platform` field, then either the per-platform credential flattening or
    the cookie fallback. -/
def sendAudioRequest (audioBlob : Blob) (platform : Option Platform)
    (config : Option PlatformConfig) (cookies : String → Option String)
    (baseUrl : String) : BackendRequest :=
  let apiEndpoint :=
    if platform = some Platform.linear then baseUrl ++ "/send-audio-linear"
    else baseUrl ++ "/send-audio"
  let audioEntry := [FormEntry.file "audio" audioBlob (blobFilename audioBlob)]
  let platformEntry :=
    match platform with
    | some p => [FormEntry.field "platform" p.name]
    | none => []
  let configEntries :=
    match config with
    | some cfg =>
      if platform = some Platform.trello then
        let (apiKey, token, boardId) := cfg.asTrello
        [FormEntry.field "apiKey" apiKey,
         FormEntry.field "token" token,
         FormEntry.field "boardId" boardId]
      else if platform = some Platform.linear then
        let (apiKey, workspaceId) := cfg.asLinear
        [FormEntry.field "apiKey" apiKey,
         FormEntry.field "workspaceId" workspaceId]
      else if platform = some Platform.asana then
        let (tok, projectId) := cfg.asAsana
        [FormEntry.field "asanaToken" tok,
         FormEntry.field "asanaProjectId" projectId]
      else []
    | none =>
      -- Fallback to cookies for backward compatibility
      [FormEntry.field "apiKey" ((cookies "apiKey").getD ""),
       FormEntry.field "token" ((cookies "token").getD ""),
       FormEntry.field "boardId" ((cookies "boardId").getD ""),
       FormEntry.field "workspaceId" ((cookies "workspaceId").getD ""),
       FormEntry.field "asanaToken" ((cookies "personalAccessToken").getD ""),
       FormEntry.field "asanaProjectId" ((cookies "projectId").getD "")]
  { apiEndpoint := apiEndpoint,
    formData := audioEntry ++ platformEntry ++ configEntries }

/-- Errors thrown (promise rejections) by the response handling of
    `sendAudioToBackend`. -/
inductive DispatchError where
  /-- `Backend error: {status} {statusText} - {body}` on `!response.ok` -/
  | backendError (status : Nat) (statusText : String) (body : String)
  /-- `new Error("Backend returned invalid JSON")` — the MalformedResponse
      condition: status 200 but `JSON.parse(responseText)` threw. -/
  | invalidJson
deriving Repr, DecidableEq

/-- `Response.ok`: the status is in the inclusive range 200–299. -/
def responseOk (status : Nat) : Bool :=
  200 ≤ status && status ≤ 299

/-- The response returned to the caller on success: the re-wrapped
    `Response` plus the parsed `data` property. -/
structure ParsedResponse (J : Type) where
  status : Nat
  statusText : String
  body : String
  data : J
deriving Repr, DecidableEq

/-- The response-handling part of `sendAudioToBackend` (after `fetch`):
    read the body text, throw `backendError` on a non-ok status, try
    `JSON.parse` (abstracted as `jsonParse`, `none` when it throws) and
    throw `invalidJson` on failure, otherwise return the rebuilt response
    with the parsed data attached. The outer `catch` only rethrows. -/
def handleBackendResponse {J : Type} (jsonParse : String → Option J)
    (status : Nat) (statusText : String) (body : String) :
    Except DispatchError (ParsedResponse J) :=
  if responseOk status = false then
    .error (.backendError status statusText body)
  else
    match jsonParse body with
    | none => .error .invalidJson
    | some data =>
      .ok { status := status, statusText := statusText, body := body, data := data }

/-- `sendAudioToBackend` end to end: build the request, perform the single
    `fetch` (abstracted as a function from the request to the status,
    status text and body text of the response), and handle the response. -/
def sendAudioToBackend {J : Type} (jsonParse : String → Option J)
    (fetchFn : BackendRequest → Nat × String × String)
    (audioBlob : Blob) (platform : Option Platform)
    (config : Option PlatformConfig) (cookies : String → Option String)
    (baseUrl : String) : Except DispatchError (ParsedResponse J) :=
  let req := sendAudioRequest audioBlob platform config cookies baseUrl
  let (status, statusText, body) := fetchFn req
  handleBackendResponse jsonParse status statusText body

/-! ### Helper lemmas -/

/-- Once the recorder is inactive (`some false`: a segment restart failed),
    no later session event can deliver a blob or reactivate the recorder:
    chunk arrivals keep the recorder field, and `processSegment` rejects on
    its state guard. -/
theorem runOps_inactive {α : Type} (ops : List (SessionOp α)) :
    ∀ s : RecorderState α, s.mediaRecorder = some false →
      (runOps s ops).1.mediaRecorder = some false ∧ (runOps s ops).2 = [] := by
  induction ops with
  | nil => exact fun s h => ⟨h, rfl⟩
  | cons op ops ih =>
    intro s h
    cases op with
    | chunk c =>
      have hmr : (ondataavailable c s).mediaRecorder = some false := h
      have := ih (ondataavailable c s) hmr
      simp [runOps, stepOp, this.1, this.2]
    | segment fl ok =>
      have hseg : processSegment fl ok s = (.error .noActiveRecording, s) := by
        simp [processSegment, h]
      have := ih s h
      simp [runOps, stepOp, hseg, this.1, this.2]

/-! ### The claims -/

/-- Claim C1 (exactly-once delivery) fails on the code: in the session
    `start; processSegment; stop` where the encoder flushes one chunk (`0`)
    while the processSegment finalize runs, the full chunk history is `[0]`
    but the concatenation of all returned blobs is `[]` — the segment blob
    is sliced from `audioChunks` before `mediaRecorder.stop()`, so the
    finalize-flushed chunk is excluded, and `processedChunkCount` is then
    set to the post-flush length, so no later call delivers it either. -/
theorem exactly_once_delivery_fails_on_finalize_flush :
    sessionHistory [SessionOp.segment [(0 : Nat)] true] [] = [0]
    ∧ sessionDelivered [SessionOp.segment [(0 : Nat)] true] [] = []
    ∧ sessionDelivered [SessionOp.segment [(0 : Nat)] true] []
        ≠ sessionHistory [SessionOp.segment [(0 : Nat)] true] [] := by
  decide

/-- Claim C2: whenever the backend responds with status 200 and a body on
    which `JSON.parse` fails, `sendAudioToBackend` reports the
    malformed-response condition (`DispatchError.invalidJson`, the thrown
    `Backend returned invalid JSON` error) to the caller as the settled
    outcome of the dispatch; being a total function into `Except`, it
    raises no unhandled exception. -/
theorem malformed_response_reported {J : Type} (jsonParse : String → Option J)
    (fetchFn : BackendRequest → Nat × String × String)
    (audioBlob : Blob) (platform : Option Platform) (config : Option PlatformConfig)
    (cookies : String → Option String) (baseUrl : String) (st body : String)
    (hfetch : fetchFn (sendAudioRequest audioBlob platform config cookies baseUrl)
        = (200, st, body))
    (hparse : jsonParse body = none) :
    sendAudioToBackend jsonParse fetchFn audioBlob platform config cookies baseUrl
      = .error DispatchError.invalidJson := by
  simp [sendAudioToBackend, hfetch, handleBackendResponse, responseOk, hparse]

/-- Witness for C2 at a concrete dispatch: status 200 with an HTML body and
    a parser that rejects it. -/
theorem malformed_response_reported_witness :
    sendAudioToBackend (J := Unit) (fun _ => none)
        (fun _ => (200, "OK", "<html>oops</html>"))
        ⟨"audio/webm"⟩ none none (fun _ => none) "http://localhost:8000"
      = .error DispatchError.invalidJson :=
  malformed_response_reported (fun _ => none)
    (fun _ => (200, "OK", "<html>oops</html>"))
    ⟨"audio/webm"⟩ none none (fun _ => none) "http://localhost:8000"
    "OK" "<html>oops</html>" rfl rfl

/-- Claim C3 (the unprocessed window is exactly the undelivered audio)
    fails on the code at the same slip as C1: after `start` and a
    `processSegment` whose finalize flushes chunk `0`, the cursor is `1`
    and the history `[0]`, yet the only delivered blob is empty — chunk
    `0` sits below the cursor without ever having been delivered, so
    `audioChunks.drop processedChunkCount` is not the undelivered audio
    (the cursor bound `processedChunkCount ≤ audioChunks.length` does hold
    here). -/
theorem unprocessed_window_not_exactly_undelivered :
    (runOps (recordingStart Nat) [SessionOp.segment [0] true]).1.processedChunkCount = 1
    ∧ (runOps (recordingStart Nat) [SessionOp.segment [0] true]).1.audioChunks = [0]
    ∧ (runOps (recordingStart Nat) [SessionOp.segment [0] true]).2 = [[]]
    ∧ (runOps (recordingStart Nat) [SessionOp.segment [0] true]).2.flatten
        ++ ((runOps (recordingStart Nat) [SessionOp.segment [0] true]).1.audioChunks.drop
              (runOps (recordingStart Nat) [SessionOp.segment [0] true]).1.processedChunkCount)
        ≠ (runOps (recordingStart Nat) [SessionOp.segment [0] true]).1.audioChunks := by
  decide

/-- Counterexample to claim C4 as stated: `processedChunkCount` does
    decrease during the lifetime of the recorder — after `start`, one chunk
    and a `processSegment` the cursor is `1`, and the final `stopRecording`
    (via `cleanup`) resets it to `0`. -/
theorem cursor_decreases_at_stop :
    (runOps (recordingStart Nat) [SessionOp.chunk 0, SessionOp.segment [] true]).1.processedChunkCount = 1
    ∧ (stopRecording []
        (runOps (recordingStart Nat) [SessionOp.chunk 0, SessionOp.segment [] true]).1).2.processedChunkCount
        = 0 := by
  decide

/-- Claim C4 as amended: immediately after a `processSegment` call that
    passes its state guard, `processedChunkCount` equals the chunk-history
    length, and after `stopRecording` it is `0`, again equal to the (now
    cleared) history length; within a running session (chunk arrivals and
    `processSegment` calls) the cursor never decreases and stays bounded by
    the history length — it is reset to `0` only by the full cleanup of
    `stopRecording` (or a fresh `startRecording`), together with the chunk
    history itself. -/
theorem cursor_tracks_history_within_session
    (s : RecorderState Nat) (flushed : List Nat) (restartOk : Bool) (op : SessionOp Nat)
    (hrec : s.mediaRecorder = some true)
    (hinv : s.processedChunkCount ≤ s.audioChunks.length) :
    (processSegment flushed restartOk s).2.processedChunkCount
        = (processSegment flushed restartOk s).2.audioChunks.length
    ∧ ((stopRecording flushed s).2.processedChunkCount = 0
        ∧ (stopRecording flushed s).2.audioChunks = [])
    ∧ s.processedChunkCount ≤ (stepOp s op).1.processedChunkCount
    ∧ (stepOp s op).1.processedChunkCount ≤ (stepOp s op).1.audioChunks.length := by
  refine ⟨?_, ?_, ?_, ?_⟩
  · simp only [processSegment, hrec]
    cases hs : s.stream <;> cases restartOk <;> simp
  · simp [stopRecording, hrec]
  · cases op with
    | chunk c => exact Nat.le_refl _
    | segment fl ok =>
      simp only [stepOp, processSegment, hrec]
      cases hs : s.stream <;> cases ok <;>
        simp [List.length_append] <;> omega
  · cases op with
    | chunk c =>
      simp only [stepOp, ondataavailable, List.length_append]
      omega
    | segment fl ok =>
      simp only [stepOp, processSegment, hrec]
      cases hs : s.stream <;> cases ok <;> simp

/-- Witness for C4 (amended) at a concrete recording state. -/
theorem cursor_tracks_history_within_session_witness :
    (processSegment [2] true (recordingStart Nat)).2.processedChunkCount
        = (processSegment [2] true (recordingStart Nat)).2.audioChunks.length
    ∧ ((stopRecording [2] (recordingStart Nat)).2.processedChunkCount = 0
        ∧ (stopRecording [2] (recordingStart Nat)).2.audioChunks = [])
    ∧ (recordingStart Nat).processedChunkCount
        ≤ (stepOp (recordingStart Nat) (SessionOp.chunk 5)).1.processedChunkCount
    ∧ (stepOp (recordingStart Nat) (SessionOp.chunk 5)).1.processedChunkCount
        ≤ (stepOp (recordingStart Nat) (SessionOp.chunk 5)).1.audioChunks.length :=
  cursor_tracks_history_within_session (recordingStart Nat) [2] true
    (SessionOp.chunk 5) (by decide) (by decide)

/-- Claim C5: route selection — platform `linear` targets
    `{base}/send-audio-linear`; `trello`, `asana`, `notion` and an absent
    platform all target `{base}/send-audio`. -/
theorem platform_route_selection (audioBlob : Blob) (config : Option PlatformConfig)
    (cookies : String → Option String) (baseUrl : String) :
    (sendAudioRequest audioBlob (some Platform.linear) config cookies baseUrl).apiEndpoint
        = baseUrl ++ "/send-audio-linear"
    ∧ (sendAudioRequest audioBlob (some Platform.trello) config cookies baseUrl).apiEndpoint
        = baseUrl ++ "/send-audio"
    ∧ (sendAudioRequest audioBlob (some Platform.asana) config cookies baseUrl).apiEndpoint
        = baseUrl ++ "/send-audio"
    ∧ (sendAudioRequest audioBlob (some Platform.notion) config cookies baseUrl).apiEndpoint
        = baseUrl ++ "/send-audio"
    ∧ (sendAudioRequest audioBlob none config cookies baseUrl).apiEndpoint
        = baseUrl ++ "/send-audio" :=
  ⟨rfl, rfl, rfl, rfl, rfl⟩

/-- Claim C6: when `getUserMedia` fails, `startRecording` rejects with the
    device-unavailable error and performs no state change at all — the
    recorder object is returned exactly as it was, so an idle recorder
    stays idle and the chunk history, cursor, encoder and stream fields are
    untouched. -/
theorem failed_start_leaves_state_unchanged (s : RecorderState Nat)
    (hidle : isRecording s = false) :
    (startRecording false s).1 = Except.error RecErr.deviceUnavailable
    ∧ (startRecording false s).2 = s
    ∧ isRecording (startRecording false s).2 = false :=
  ⟨rfl, rfl, hidle⟩

/-- Witness for C6 at the freshly constructed (idle) recorder. -/
theorem failed_start_leaves_state_unchanged_witness :
    (startRecording false (initialRecorder Nat)).1 = Except.error RecErr.deviceUnavailable
    ∧ (startRecording false (initialRecorder Nat)).2 = initialRecorder Nat
    ∧ isRecording (startRecording false (initialRecorder Nat)).2 = false :=
  failed_start_leaves_state_unchanged (initialRecorder Nat) (by decide)

/-- Claim C7: with no credential bundle, `sendAudioToBackend` does not fail
    and appends the six credential form fields from the cookie store
    (`asanaToken` and `asanaProjectId` read the `personalAccessToken` and
    `projectId` cookies), each defaulting to the empty string when the
    cookie is missing — stated for both a present and an absent platform
    argument. -/
theorem cookie_fallback_credential_fields (audioBlob : Blob) (p : Platform)
    (cookies : String → Option String) (baseUrl : String) :
    (sendAudioRequest audioBlob (some p) none cookies baseUrl).formData
      = [FormEntry.file "audio" audioBlob (blobFilename audioBlob),
         FormEntry.field "platform" p.name,
         FormEntry.field "apiKey" ((cookies "apiKey").getD ""),
         FormEntry.field "token" ((cookies "token").getD ""),
         FormEntry.field "boardId" ((cookies "boardId").getD ""),
         FormEntry.field "workspaceId" ((cookies "workspaceId").getD ""),
         FormEntry.field "asanaToken" ((cookies "personalAccessToken").getD ""),
         FormEntry.field "asanaProjectId" ((cookies "projectId").getD "")]
    ∧ (sendAudioRequest audioBlob none none cookies baseUrl).formData
      = [FormEntry.file "audio" audioBlob (blobFilename audioBlob),
         FormEntry.field "apiKey" ((cookies "apiKey").getD ""),
         FormEntry.field "token" ((cookies "token").getD ""),
         FormEntry.field "boardId" ((cookies "boardId").getD ""),
         FormEntry.field "workspaceId" ((cookies "workspaceId").getD ""),
         FormEntry.field "asanaToken" ((cookies "personalAccessToken").getD ""),
         FormEntry.field "asanaProjectId" ((cookies "projectId").getD "")] :=
  ⟨rfl, rfl⟩

/-- Claim C8: the concrete Trello scenario — a webm blob dispatched with
    platform `trello` and credentials `{apiKey: k, token: t, boardId: b}`
    yields a multipart body of exactly the entries `audio` (under
    `recording.webm`), `platform=trello`, `apiKey=k`, `token=t`,
    `boardId=b`, and targets the generic `{base}/send-audio` endpoint. -/
theorem trello_dispatch_scenario (baseUrl : String) :
    (sendAudioRequest ⟨"audio/webm"⟩ (some Platform.trello)
        (some (PlatformConfig.trelloConf ⟨"k", "t", "b"⟩)) (fun _ => none) baseUrl).formData
      = [FormEntry.file "audio" ⟨"audio/webm"⟩ "recording.webm",
         FormEntry.field "platform" "trello",
         FormEntry.field "apiKey" "k",
         FormEntry.field "token" "t",
         FormEntry.field "boardId" "b"]
    ∧ (sendAudioRequest ⟨"audio/webm"⟩ (some Platform.trello)
        (some (PlatformConfig.trelloConf ⟨"k", "t", "b"⟩)) (fun _ => none) baseUrl).apiEndpoint
      = baseUrl ++ "/send-audio" :=
  ⟨rfl, rfl⟩

/-- Claim C9: when the encoder rebind inside `processSegment` fails, the
    call rejects with the restart error, but the cursor has already been
    advanced to the full post-flush chunk-history length and is not
    restored; from that inactive state no later `processSegment` delivers
    any blob and the final `stopRecording` cannot finalize either, so the
    chunks of the failed segment are never delivered. -/
theorem failed_restart_advances_cursor_and_drops_segment
    (s : RecorderState Nat) (flushed : List Nat)
    (hrec : s.mediaRecorder = some true) (hstream : s.stream = true) :
    (processSegment flushed false s).1 = Except.error RecErr.restartFailed
    ∧ (processSegment flushed false s).2.processedChunkCount
        = (processSegment flushed false s).2.audioChunks.length
    ∧ ∀ (rest : List (SessionOp Nat)) (stopFlush : List Nat),
        (runOps (processSegment flushed false s).2 rest).2 = []
        ∧ (stopRecording stopFlush (runOps (processSegment flushed false s).2 rest).1).1
            = Except.error RecErr.invalidState := by
  have hfail : processSegment flushed false s
      = (.error .restartFailed,
         { s with mediaRecorder := some false,
                  audioChunks := s.audioChunks ++ flushed,
                  processedChunkCount := (s.audioChunks ++ flushed).length }) := by
    simp [processSegment, hrec, hstream]
  refine ⟨by rw [hfail], by rw [hfail], fun rest stopFlush => ?_⟩
  have hmr : (processSegment flushed false s).2.mediaRecorder = some false := by
    rw [hfail]
  have hrun := runOps_inactive rest (processSegment flushed false s).2 hmr
  refine ⟨hrun.2, ?_⟩
  simp [stopRecording, hrun.1]

/-- Witness for C9: a running session with one recorded chunk whose
    segment finalize flushes a second chunk and whose restart fails. -/
theorem failed_restart_advances_cursor_and_drops_segment_witness :
    (processSegment [1] false (ondataavailable 0 (recordingStart Nat))).1
        = Except.error RecErr.restartFailed
    ∧ (processSegment [1] false (ondataavailable 0 (recordingStart Nat))).2.processedChunkCount
        = (processSegment [1] false (ondataavailable 0 (recordingStart Nat))).2.audioChunks.length
    ∧ ∀ (rest : List (SessionOp Nat)) (stopFlush : List Nat),
        (runOps (processSegment [1] false (ondataavailable 0 (recordingStart Nat))).2 rest).2 = []
        ∧ (stopRecording stopFlush
            (runOps (processSegment [1] false (ondataavailable 0 (recordingStart Nat))).2 rest).1).1
            = Except.error RecErr.invalidState :=
  failed_restart_advances_cursor_and_drops_segment
    (ondataavailable 0 (recordingStart Nat)) [1] (by decide) (by decide)

/-- Claim C10: when a credential bundle is supplied but the platform is
    absent or `notion`, no credential field is appended at all — the
    per-platform branches are skipped and the cookie fallback is not taken. -/
theorem config_without_matching_platform_sends_no_credentials
    (audioBlob : Blob) (config : PlatformConfig)
    (cookies : String → Option String) (baseUrl : String) :
    (sendAudioRequest audioBlob none (some config) cookies baseUrl).formData
      = [FormEntry.file "audio" audioBlob (blobFilename audioBlob)]
    ∧ (sendAudioRequest audioBlob (some Platform.notion) (some config) cookies baseUrl).formData
      = [FormEntry.file "audio" audioBlob (blobFilename audioBlob),
         FormEntry.field "platform" "notion"] :=
  ⟨rfl, rfl⟩

end Frontpush
